import Mathlib

/-!
# InterviewAI front end: interaction model

A shallow embedding of the event handlers of
`src/frontend/src/components/QuestionGenerator.jsx`,
`src/frontend/src/components/Navbar.jsx` and of `logout` in
`src/frontend/src/components/AuthContext.jsx`.

* React state is a record; a handler is a function from the state it runs on to
  the state it leaves, the effects it performs on the outside world, and the
  exception that escapes it (if any).
* An `async` handler is split at its `await fetch(...)`: the part before the
  await (`...Start`) and the continuation that runs once the fetch has settled
  (`...Settle`).  The functions named after the handlers compose the two.
* Values that come out of `response.json()` are kept as JavaScript values
  (`JSVal`): the handlers store them in the state without looking at them.
-/

namespace InterviewAI

/-! ## JavaScript values -/

/-- JavaScript values that can come out of `JSON.parse`, plus `undefined` (the
value of a missing property).  A number is carried as the text that the
Number-to-String conversion gives for it: the code under study never does
arithmetic on a number received from the backend.  The fields of an object are its
own properties (keys distinct, as after parsing). -/
inductive JSVal where
  | undefined
  | null
  | bool (b : Bool)
  | num (text : String)
  | str (s : String)
  | arr (items : List JSVal)
  | obj (fields : List (String × JSVal))

/-- Exceptions: a `TypeError`, the `SyntaxError` of a body that is not JSON, an
`Error` made by `new Error(message)`. -/
inductive JSError where
  | typeError
  | syntaxError
  | error (message : String)

/-- The array of strings `[s₀, s₁, ...]`. -/
def strArr (ss : List String) : JSVal :=
  .arr (ss.map .str)

/-- Own property lookup. -/
def lookupField (key : String) : List (String × JSVal) → Option JSVal
  | [] => none
  | (k, v) :: rest => if k = key then some v else lookupField key rest

/-- The property read `v.key`, for a key that no built-in prototype defines
(here `questions` and `skills`): a `TypeError` on `undefined` and `null`, the own
property of an object, `undefined` on everything else. -/
def getField (key : String) : JSVal → Except JSError JSVal
  | .undefined => .error .typeError
  | .null => .error .typeError
  | .obj fields => .ok ((lookupField key fields).getD .undefined)
  | _ => .ok .undefined

/-- `Array.isArray(v)`. -/
def isArray : JSVal → Bool
  | .arr _ => true
  | _ => false

/-- Conjunction of two string conversions inside `Array.prototype.join` with
separator `,`: the first exception wins, the last element gets no separator. -/
def glue (isLast : Bool) (a b : Except JSError String) : Except JSError String :=
  match a, b with
  | .error e, _ => .error e
  | .ok _, .error e => .error e
  | .ok x, .ok y => if isLast then .ok x else .ok (x ++ "," ++ y)

mutual
/-- The string conversion `ToString(v)` applied by a template literal.  An array
joins its elements with `,`; an object gives `[object Object]` unless it has an
own (hence non-callable) `toString` property, in which case the conversion throws
a `TypeError`. -/
def jsToString : JSVal → Except JSError String
  | .undefined => .ok "undefined"
  | .null => .ok "null"
  | .bool true => .ok "true"
  | .bool false => .ok "false"
  | .num t => .ok t
  | .str s => .ok s
  | .arr items => jsJoinComma items
  | .obj fields =>
    if (lookupField "toString" fields).isSome then .error .typeError else .ok "[object Object]"
termination_by structural v => v
/-- The conversion `items.join(",")` used by `ToString` of an array: `undefined`
and `null` elements give the empty string. -/
def jsJoinComma : List JSVal → Except JSError String
  | [] => .ok ""
  | .undefined :: rest => glue rest.isEmpty (.ok "") (jsJoinComma rest)
  | .null :: rest => glue rest.isEmpty (.ok "") (jsJoinComma rest)
  | x :: rest => glue rest.isEmpty (jsToString x) (jsJoinComma rest)
termination_by structural l => l
end

/-- The string an element contributes to `Array.prototype.join`. -/
def jsElemString : JSVal → Except JSError String
  | .undefined => .ok ""
  | .null => .ok ""
  | v => jsToString v

/-- The call `items.join(sep)`. -/
def jsJoin (sep : String) : List JSVal → Except JSError String
  | [] => .ok ""
  | [x] => jsElemString x
  | x :: rest =>
    match jsElemString x with
    | .error e => .error e
    | .ok a =>
      match jsJoin sep rest with
      | .error e => .error e
      | .ok b => .ok (a ++ sep ++ b)

/-- White space and line terminators of ECMAScript, the characters that
`String.prototype.trim` removes. -/
def isJSWhiteSpace (c : Char) : Bool :=
  let n := c.toNat
  n == 0x09 || n == 0x0A || n == 0x0B || n == 0x0C || n == 0x0D || n == 0x20 ||
  n == 0xA0 || n == 0x1680 || (0x2000 ≤ n && n ≤ 0x200A) || n == 0x2028 ||
  n == 0x2029 || n == 0x202F || n == 0x205F || n == 0x3000 || n == 0xFEFF

/-- The call `s.trim()`. -/
def jsTrim (s : String) : String :=
  String.mk ((s.toList.dropWhile isJSWhiteSpace).reverse.dropWhile isJSWhiteSpace).reverse

/-- Truthiness of a string: every string but the empty one. -/
def truthy (s : String) : Bool :=
  !(s.length == 0)

/-! ## The outside world: requests, responses, effects -/

/-- A file picked or dropped by the user. -/
structure File where
  name : String
  size : Nat

/-- Body of a request. -/
inductive RequestBody where
  | empty
  | formData (fields : List (String × File))
  | json (payload : JSVal)

/-- Arguments of one `fetch` call; `json v` is the body `JSON.stringify(v)`. -/
structure Request where
  url : String
  method : String
  headers : List (String × String)
  body : RequestBody

/-- A response: its status and what `response.json()` resolves to (`none` when it
rejects because the body is not JSON). -/
structure Response where
  status : Nat
  body : Option JSVal

/-- The flag `response.ok`: the status is in the range 200 to 299. -/
def Response.ok (r : Response) : Bool :=
  decide (200 ≤ r.status) && decide (r.status ≤ 299)

/-- How a `fetch` settles: it rejects (network failure) or resolves with a
response. -/
inductive FetchOutcome where
  | rejected (reason : JSError)
  | resolved (r : Response)

/-- The fetch rejected or the response is not 2xx. -/
def FetchOutcome.failed : FetchOutcome → Bool
  | .rejected _ => true
  | .resolved r => !r.ok

/-- Horizontal alignment of a text item. -/
inductive Align where
  | left
  | center

/-- One `doc.text(text, x, y, options)` call, with the font size in force. -/
structure TextItem where
  text : String
  x : Nat
  y : Nat
  fontSize : Nat
  align : Align

/-- A jsPDF document: the current font size (16 in a new document) and the text
items written so far, in writing order. -/
structure PdfDoc where
  fontSize : Nat
  items : List TextItem

/-- The call `new jsPDF()`. -/
def PdfDoc.new : PdfDoc :=
  { fontSize := 16, items := [] }

/-- The call `doc.setFontSize(n)`. -/
def PdfDoc.setFontSize (doc : PdfDoc) (n : Nat) : PdfDoc :=
  { doc with fontSize := n }

/-- The call `doc.text(text, x, y, options)`. -/
def PdfDoc.text (doc : PdfDoc) (text : String) (x y : Nat) (align : Align) : PdfDoc :=
  { doc with items := doc.items ++ [{ text := text, x := x, y := y, fontSize := doc.fontSize, align := align }] }

/-- A speech recognizer as configured by `startRecording`. -/
structure Recognizer where
  continuous : Bool
  interimResults : Bool
  lang : String

/-- Effects of a handler on the outside world, in program order. -/
inductive Effect where
  | fetch (req : Request)
  | consoleError (label : String)
  | consoleLog (label : String) (v : JSVal)
  | recognizerStart (r : Recognizer)
  | recognizerStop (r : Recognizer)
  | savePdf (filename : String) (doc : PdfDoc)
  | preventDefault
  | stopPropagation

/-- The effect is a network call. -/
def Effect.isFetch : Effect → Bool
  | .fetch _ => true
  | _ => false

/-- The effect saves a document. -/
def Effect.isSave : Effect → Bool
  | .savePdf _ _ => true
  | _ => false

/-- The requests issued by a list of effects, in order. -/
def requestsOf : List Effect → List Request
  | [] => []
  | .fetch r :: rest => r :: requestsOf rest
  | _ :: rest => requestsOf rest

/-- The documents saved by a list of effects, in order. -/
def savedDocs : List Effect → List (String × PdfDoc)
  | [] => []
  | .savePdf name doc :: rest => (name, doc) :: savedDocs rest
  | _ :: rest => savedDocs rest

/-! ## QuestionGenerator.jsx -/

/-- The state of the `QuestionGenerator` component (its `useState` cells).
`questions` and `skills` hold whatever the handlers pass to `setQuestions` and
`setSkills`. -/
structure QGState where
  isLoading : Bool
  questions : JSVal
  skills : JSVal
  isRecording : Bool
  dragActive : Bool
  error : String
  transcript : String
  recognition : Option Recognizer

/-- The initial values given to `useState`. -/
def QGState.init : QGState :=
  { isLoading := false, questions := .arr [], skills := .arr [], isRecording := false,
    dragActive := false, error := "", transcript := "", recognition := none }

/-- What running a piece of a handler gives: the state it leaves, its effects, and
the exception that escapes it. -/
structure Step where
  state : QGState
  effects : List Effect
  thrown : Option JSError

/-- Sequencing of two pieces of a handler. -/
def Step.andThen (a : Step) (f : QGState → Step) : Step :=
  let b := f a.state
  { state := b.state, effects := a.effects ++ b.effects, thrown := b.thrown }

/-- The request of `processFile`. -/
def uploadRequest (file : File) : Request :=
  { url := "http://localhost:5000/api/upload-resume-public", method := "POST", headers := [],
    body := .formData [("file", file)] }

/-- The request of `stopRecording`. -/
def voiceRequest (transcript : String) : Request :=
  { url := "http://localhost:5000/api/process-voice-public", method := "POST",
    headers := [("Content-Type", "application/json")],
    body := .json (.obj [("transcription", .str transcript)]) }

/-- The handler `processFile` up to its `await fetch(...)` (lines 35 to 46). -/
def processFileStart (s : QGState) (file : File) : Step :=
  { state := { s with isLoading := true, error := "" },
    effects := [.fetch (uploadRequest file)], thrown := none }

/-- The rest of the `try` block of `processFile` once the fetch has settled (lines 48
to 54): the state reached and the exception thrown inside the block. -/
def processFileTry (s : QGState) (o : FetchOutcome) : QGState × Option JSError :=
  match o with
  | .rejected e => (s, some e)
  | .resolved r =>
    if !r.ok then (s, some (.error "Error uploading resume"))
    else
      match r.body with
      | none => (s, some .syntaxError)
      | some data =>
        match getField "questions" data with
        | .error e => (s, some e)
        | .ok q =>
          let s1 := { s with questions := q }
          match getField "skills" data with
          | .error e => (s1, some e)
          | .ok k => ({ s1 with skills := k }, none)

/-- The handler `processFile` after its `await fetch(...)`: the `try` block, then
`catch` and `finally` (lines 48 to 60). -/
def processFileSettle (s : QGState) (o : FetchOutcome) : Step :=
  match processFileTry s o with
  | (s1, some _) =>
    { state := { s1 with error := "Failed to process your resume. Please try again.", isLoading := false },
      effects := [.consoleError "Error:"], thrown := none }
  | (s1, none) =>
    { state := { s1 with isLoading := false }, effects := [], thrown := none }

/-- The handler `processFile(file)` run to completion against a fetch that settles
as `o`. -/
def processFile (s : QGState) (file : File) (o : FetchOutcome) : Step :=
  (processFileStart s file).andThen (fun s1 => processFileSettle s1 o)

/-- The handler `handleResumeUpload`: `files` is `e.target.files`. -/
def handleResumeUpload (s : QGState) (files : List File) (o : FetchOutcome) : Step :=
  match files with
  | file :: _ => processFile s file o
  | [] => { state := s, effects := [], thrown := none }

/-- The handler `handleDrop`: `files` is `e.dataTransfer.files`. -/
def handleDrop (s : QGState) (files : List File) (o : FetchOutcome) : Step :=
  let a : Step :=
    { state := { s with dragActive := false }, effects := [.preventDefault, .stopPropagation],
      thrown := none }
  match files with
  | file :: _ => a.andThen (fun s1 => processFile s1 file o)
  | [] => a

/-- What `window` exposes of the Web Speech API. -/
structure Platform where
  webkitSpeechRecognition : Bool
  speechRecognition : Bool

/-- The handler `startRecording` (lines 63 to 110). -/
def startRecording (p : Platform) (s : QGState) : Step :=
  let s1 := { s with isRecording := true, error := "" }
  if !p.webkitSpeechRecognition && !p.speechRecognition then
    { state := { s1 with error := "Speech recognition is not supported in your browser.",
                         isRecording := false },
      effects := [], thrown := none }
  else
    let r : Recognizer := { continuous := true, interimResults := true, lang := "en-US" }
    { state := { s1 with recognition := some r }, effects := [.recognizerStart r], thrown := none }

/-- The callback `recognitionInstance.onstart`. -/
def onstart (s : QGState) : QGState :=
  { s with transcript := "" }

/-- One entry of `event.results`: `transcript` is `results[i][0].transcript`,
`isFinal` is `results[i].isFinal`. -/
structure SpeechResult where
  transcript : String
  isFinal : Bool

/-- A recognition event handed to `onresult`. -/
structure SpeechEvent where
  resultIndex : Nat
  results : List SpeechResult

/-- The `for` loop of `onresult` over the results still to visit, threading the two
local accumulators `finalTranscript` and `interimTranscript`. -/
def onresultLoop : List SpeechResult → String → String → String × String
  | [], finalTranscript, interimTranscript => (finalTranscript, interimTranscript)
  | r :: rest, finalTranscript, interimTranscript =>
    if r.isFinal then onresultLoop rest (finalTranscript ++ (r.transcript ++ " ")) interimTranscript
    else onresultLoop rest finalTranscript (interimTranscript ++ r.transcript)

/-- The callback `recognitionInstance.onresult` (lines 86 to 100): the loop starts
at `event.resultIndex` with both accumulators empty. -/
def onresult (ev : SpeechEvent) (s : QGState) : QGState :=
  let acc := onresultLoop (ev.results.drop ev.resultIndex) "" ""
  { s with transcript := acc.1 ++ acc.2 }

/-- The callback `recognitionInstance.onerror`; `code` is `event.error`. -/
def onerror (code : String) (s : QGState) : Step :=
  { state := { s with error := "Speech recognition error: " ++ code, isRecording := false },
    effects := [.consoleError "Speech recognition error"], thrown := none }

/-- The recognition events of a session delivered one after the other. -/
def deliver (events : List SpeechEvent) (s : QGState) : QGState :=
  events.foldl (fun st ev => onresult ev st) s

/-- The handler `stopRecording` up to its `await fetch(...)`, or to its end when the
transcript is blank (lines 113 to 131 and 146 to 148). -/
def stopRecordingStart (s : QGState) : Step :=
  let a : Step :=
    match s.recognition with
    | some r => { state := { s with recognition := none }, effects := [.recognizerStop r], thrown := none }
    | none => { state := s, effects := [], thrown := none }
  let s2 := { a.state with isRecording := false }
  if truthy (jsTrim s.transcript) then
    { state := { s2 with isLoading := true },
      effects := a.effects ++ [.fetch (voiceRequest s.transcript)], thrown := none }
  else
    { state := { s2 with error := "No speech detected. Please try again." },
      effects := a.effects, thrown := none }

/-- The rest of the `try` block of `stopRecording` once the fetch has settled (lines
133 to 139). -/
def stopRecordingTry (s : QGState) (o : FetchOutcome) : QGState × Option JSError :=
  match o with
  | .rejected e => (s, some e)
  | .resolved r =>
    if !r.ok then (s, some (.error "Error processing voice input"))
    else
      match r.body with
      | none => (s, some .syntaxError)
      | some data =>
        match getField "questions" data with
        | .error e => (s, some e)
        | .ok q =>
          let s1 := { s with questions := q }
          match getField "skills" data with
          | .error e => (s1, some e)
          | .ok k => ({ s1 with skills := k }, none)

/-- The handler `stopRecording` after its `await fetch(...)`: the `try` block, then
`catch` and `finally` (lines 133 to 145). -/
def stopRecordingSettle (s : QGState) (o : FetchOutcome) : Step :=
  match stopRecordingTry s o with
  | (s1, some _) =>
    { state := { s1 with error := "Failed to process your voice input. Please try again.",
                         isLoading := false },
      effects := [.consoleError "Error:"], thrown := none }
  | (s1, none) =>
    { state := { s1 with isLoading := false }, effects := [], thrown := none }

/-- The handler `stopRecording` run to completion; the fetch, when one is issued,
settles as `o`. -/
def stopRecording (s : QGState) (o : FetchOutcome) : Step :=
  if truthy (jsTrim s.transcript) then
    (stopRecordingStart s).andThen (fun s1 => stopRecordingSettle s1 o)
  else stopRecordingStart s

/-- The handler `toggleRecording`. -/
def toggleRecording (p : Platform) (s : QGState) (o : FetchOutcome) : Step :=
  if !s.isRecording then startRecording p s else stopRecording s o

/-- The click handler of the error banner: `setError("")`. -/
def dismissError (s : QGState) : QGState :=
  { s with error := "" }

/-- The `questions.forEach` loop of `exportToPDF` (lines 184 to 189) over the
questions still to write: `index` is the index of the next question, `currentY` the
local variable of that name.  The template literal converts the question to a
string, which can throw. -/
def writeQuestions : List JSVal → Nat → Nat → PdfDoc → Except JSError PdfDoc
  | [], _, _, doc => .ok doc
  | question :: rest, index, currentY, doc =>
    match jsToString question with
    | .error e => .error e
    | .ok q =>
      writeQuestions rest (index + 1) (currentY + 10)
        ((doc.setFontSize 10).text (toString (index + 1) ++ ". " ++ q) 15 currentY .left)

/-- The skills section of `exportToPDF` (lines 172 to 178) for an array `skills`. -/
def writeSkills (skills : List JSVal) (doc : PdfDoc) : Except JSError PdfDoc :=
  if skills.length > 0 then
    let doc1 := (doc.setFontSize 12).text "Skills:" 15 35 .left
    match jsJoin ", " skills with
    | .error e => .error e
    | .ok skillsText => .ok ((doc1.setFontSize 10).text skillsText 15 45 .left)
  else .ok doc

/-- The document `exportToPDF` builds from a non-empty array of questions and an
array of skills (lines 165 to 189). -/
def buildDocument (questions skills : List JSVal) : Except JSError PdfDoc :=
  let doc0 := (PdfDoc.new.setFontSize 20).text "Generated Interview Questions" 105 20 .center
  match writeSkills skills doc0 with
  | .error e => .error e
  | .ok doc1 =>
    writeQuestions questions 0 75 ((doc1.setFontSize 12).text "Questions:" 15 65 .left)

/-- The handler `exportToPDF` (lines 159 to 193).  The jsPDF document is local to
the handler, so an exception leaves no effect behind.  Reading `.length` of
`undefined` or `null` throws a `TypeError`.  The result is `none` when `questions`,
or `skills` next to a non-empty array of questions, holds a value that is neither
an array nor `undefined` nor `null`: the coercions JavaScript applies to such a
value are outside this embedding. -/
def exportToPDF (s : QGState) : Option Step :=
  match s.questions with
  | .undefined => some { state := s, effects := [], thrown := some .typeError }
  | .null => some { state := s, effects := [], thrown := some .typeError }
  | .arr questions =>
    if questions.length = 0 then
      some { state := { s with error := "No questions to export. Please generate questions first." },
             effects := [], thrown := none }
    else
      match s.skills with
      | .undefined => some { state := s, effects := [], thrown := some .typeError }
      | .null => some { state := s, effects := [], thrown := some .typeError }
      | .arr skills =>
        match buildDocument questions skills with
        | .error e => some { state := s, effects := [], thrown := some e }
        | .ok doc => some { state := s, effects := [.savePdf "interview-questions.pdf" doc], thrown := none }
      | _ => none
  | _ => none

/-! ## Navbar.jsx -/

/-- The state of the `Navbar` component. -/
structure NavbarState where
  isMobileMenuOpen : Bool
  history : List JSVal
  showHistory : Bool
  isLoading : Bool

/-- The initial values given to `useState`. -/
def NavbarState.init : NavbarState :=
  { isMobileMenuOpen := false, history := [], showHistory := false, isLoading := false }

/-- What running a piece of a `Navbar` handler gives. -/
structure NavStep where
  state : NavbarState
  effects : List Effect
  thrown : Option JSError

/-- The request of `fetchHistory`: a `fetch` with the URL alone. -/
def historyRequest : Request :=
  { url := "http://localhost:5000/api/question-history-public", method := "GET", headers := [],
    body := .empty }

/-- The expression `Array.isArray(data) ? data : []` (line 23). -/
def arrayOrEmpty (data : JSVal) : List JSVal :=
  match data with
  | .arr items => items
  | _ => []

/-- The handler `fetchHistory` up to its `await fetch(...)` (lines 11 to 13). -/
def fetchHistoryStart (s : NavbarState) : NavStep :=
  { state := { s with isLoading := true }, effects := [.fetch historyRequest], thrown := none }

/-- The rest of the `try` block of `fetchHistory` once the fetch has settled (lines
15 to 24). -/
def fetchHistoryTry (s : NavbarState) (o : FetchOutcome) : NavbarState × List Effect × Option JSError :=
  match o with
  | .rejected e => (s, [], some e)
  | .resolved res =>
    if !res.ok then (s, [], some (.error ("HTTP error! status: " ++ toString res.status)))
    else
      match res.body with
      | none => (s, [], some .syntaxError)
      | some data =>
        ({ s with history := arrayOrEmpty data, showHistory := true },
         [.consoleLog "Fetched history:" data], none)

/-- The handler `fetchHistory` after its `await fetch(...)`: the `try` block, then
`catch` and `finally` (lines 15 to 31). -/
def fetchHistorySettle (s : NavbarState) (o : FetchOutcome) : NavStep :=
  match fetchHistoryTry s o with
  | (s1, effects, some _) =>
    { state := { s1 with history := [], isLoading := false },
      effects := effects ++ [.consoleError "Error fetching history:"], thrown := none }
  | (s1, effects, none) =>
    { state := { s1 with isLoading := false }, effects := effects, thrown := none }

/-- The handler `fetchHistory` run to completion against a fetch that settles as
`o`. -/
def fetchHistory (s : NavbarState) (o : FetchOutcome) : NavStep :=
  let a := fetchHistoryStart s
  let b := fetchHistorySettle a.state o
  { state := b.state, effects := a.effects ++ b.effects, thrown := b.thrown }

/-- What the history modal shows (lines 115 to 155). -/
inductive HistoryModal where
  | hidden
  | loading
  | noHistory
  | entries (items : List JSVal)

/-- The history modal rendered from a state. -/
def historyModal (s : NavbarState) : HistoryModal :=
  if s.showHistory then
    if s.isLoading then .loading
    else if s.history.length = 0 then .noHistory
    else .entries s.history
  else .hidden

/-! ## Inputs used by the worked examples -/

/-- A sample file. -/
def sampleFile : File :=
  { name := "resume.pdf", size := 1024 }

/-- A well-formed success body. -/
def sampleBody : JSVal :=
  .obj [("questions", strArr ["Q1", "Q2"]), ("skills", strArr ["SQL"])]

/-- A state that shows the results and the error of earlier requests. -/
def stateWithResults : QGState :=
  { QGState.init with questions := strArr ["Q1"], skills := strArr ["SQL"], error := "old error" }

/-- A state in the middle of a capture with a transcript, showing earlier results
and an earlier error. -/
def stateCapturing : QGState :=
  { stateWithResults with isRecording := true, transcript := "hello" }

/-- A state in the middle of a capture of a fresh component, transcript `hello`. -/
def stateHeard : QGState :=
  { QGState.init with isRecording := true, transcript := "hello" }

/-- A browser that has the Web Speech API under its prefixed name. -/
def chrome : Platform :=
  { webkitSpeechRecognition := true, speechRecognition := false }

/-- The finalized fragments among the results, each followed by one space. -/
def finalizedOf : List SpeechResult → String
  | [] => ""
  | r :: rest => if r.isFinal then (r.transcript ++ " ") ++ finalizedOf rest else finalizedOf rest

/-- The interim fragments among the results. -/
def interimOf : List SpeechResult → String
  | [] => ""
  | r :: rest => if r.isFinal then interimOf rest else r.transcript ++ interimOf rest

/-- The results an event delivers: those from `resultIndex` on. -/
def SpeechEvent.delivered (ev : SpeechEvent) : List SpeechResult :=
  ev.results.drop ev.resultIndex

/-- The finalized text of a whole session, in delivery order. -/
def sessionFinalized : List SpeechEvent → String
  | [] => ""
  | ev :: rest => finalizedOf ev.delivered ++ sessionFinalized rest

/-- The transcript that the specification describes after a sequence of events:
every finalized fragment delivered so far, each followed by one space, then the
interim text of the latest event only. -/
def specTranscript (events : List SpeechEvent) : String :=
  sessionFinalized events ++
    match events.getLast? with
    | some ev => interimOf ev.delivered
    | none => ""

/-- First event of a two-phrase session: the phrase `hello` is final. -/
def eventHelloFinal : SpeechEvent :=
  { resultIndex := 0, results := [{ transcript := "hello", isFinal := true }] }

/-- Second event of the same session: the result list has grown, the change starts
at index 1 with the interim text `wor`. -/
def eventWorInterim : SpeechEvent :=
  { resultIndex := 1,
    results := [{ transcript := "hello", isFinal := true }, { transcript := "wor", isFinal := false }] }

/-- An event with the single interim result `text`. -/
def interimEvent (text : String) : SpeechEvent :=
  { resultIndex := 0, results := [{ transcript := text, isFinal := false }] }

/-- An event with the single final result `text`. -/
def finalEvent (text : String) : SpeechEvent :=
  { resultIndex := 0, results := [{ transcript := text, isFinal := true }] }

/-- A state showing two questions and one skill. -/
def stateTwoQuestions : QGState :=
  { QGState.init with questions := strArr ["Q1", "Q2"], skills := strArr ["SQL"] }

/-- The texts of the items of the documents that `exportToPDF` saves from a state,
in writing order. -/
def writtenTexts (s : QGState) : List String :=
  match exportToPDF s with
  | some t => (savedDocs t.effects).flatMap (fun nd => nd.2.items.map (fun item => item.text))
  | none => []

/-! ## QuestionGenerator.jsx: rendering and the event loop -/

mutual
/-- React accepts the value as a child of an element: strings and numbers are
text, booleans, `null` and `undefined` render nothing, an array renders its items,
an object is refused with an `Error`. -/
def validChild : JSVal → Bool
  | .obj _ => false
  | .arr items => validChildren items
  | _ => true
termination_by structural v => v
/-- React accepts every value of the list as a child. -/
def validChildren : List JSVal → Bool
  | [] => true
  | x :: rest => validChild x && validChildren rest
termination_by structural l => l
end

/-- What `QuestionGenerator` displays, apart from the input area chosen by the
`mode` property: the error banner with its message (line 197), the loading
indicator (line 277), and the results panel (line 284) with the skill tags and
the questions it lists. -/
structure View where
  errorBanner : Option String
  loadingIndicator : Bool
  resultsPanel : Option (List JSVal × List JSVal)

/-- The render function of the component (lines 195 to 340), for the three
conditional blocks.  Reading `.length` of `undefined` or `null` throws a
`TypeError`, an object among the rendered skills or questions throws an `Error`.
The result is `none` when `questions`, or `skills` inside the results panel, holds
a value that is neither an array nor `undefined` nor `null`: the coercions
JavaScript applies to such a value are outside this embedding. -/
def render (s : QGState) : Option (Except JSError View) :=
  let errorBanner := if truthy s.error then some s.error else none
  match s.questions with
  | .undefined => some (.error .typeError)
  | .null => some (.error .typeError)
  | .arr questions =>
    if questions.length > 0 && !s.isLoading then
      match s.skills with
      | .undefined => some (.error .typeError)
      | .null => some (.error .typeError)
      | .arr skills =>
        let tags := if skills.length > 0 then skills else []
        if validChildren tags && validChildren questions then
          some (.ok { errorBanner := errorBanner, loadingIndicator := s.isLoading,
                      resultsPanel := some (tags, questions) })
        else some (.error (.error "Objects are not valid as a React child"))
      | _ => none
    else
      some (.ok { errorBanner := errorBanner, loadingIndicator := s.isLoading,
                  resultsPanel := none })
  | _ => none

/-- The handler `handleResumeUpload` up to the `await` of `processFile`. -/
def handleResumeUploadStart (s : QGState) (files : List File) : Step :=
  match files with
  | file :: _ => processFileStart s file
  | [] => { state := s, effects := [], thrown := none }

/-- The handler `handleDrop` up to the `await` of `processFile`. -/
def handleDropStart (s : QGState) (files : List File) : Step :=
  let a : Step :=
    { state := { s with dragActive := false }, effects := [.preventDefault, .stopPropagation],
      thrown := none }
  match files with
  | file :: _ => a.andThen (fun s1 => processFileStart s1 file)
  | [] => a

/-- The handler `toggleRecording` up to the `await` of `stopRecording`. -/
def toggleRecordingStart (p : Platform) (s : QGState) : Step :=
  if !s.isRecording then startRecording p s else stopRecordingStart s

/-- A producing request in flight, named after the handler that awaits it. -/
inductive Pending where
  | upload
  | voice
  deriving DecidableEq

/-- The component together with the requests it has issued that have not settled
yet, oldest first. -/
structure System where
  ui : QGState
  inFlight : List Pending

/-- The freshly mounted component. -/
def System.init : System :=
  { ui := QGState.init, inFlight := [] }

/-- What can happen to the component: user events, recognizer callbacks, and the
completion of the request at position `i` of the requests in flight. -/
inductive Event where
  | selectFile (files : List File)
  | dropFile (files : List File)
  | toggleRecord
  | recognizerStarted
  | recognizerResult (ev : SpeechEvent)
  | recognizerError (code : String)
  | exportClick
  | dismissClick
  | completion (i : Nat) (o : FetchOutcome)

/-- The requests in flight after a handler has run up to its `await`: each fetch it
issued is appended with the given kind. -/
def System.after (sys : System) (kind : Pending) (t : Step) : System :=
  { ui := t.state, inFlight := sys.inFlight ++ (requestsOf t.effects).map (fun _ => kind) }

/-- One event on the component, on a platform `p`.  A completion runs the
continuation of the handler that awaits the request; a completion for a position
where nothing is in flight does nothing.  `exportClick` leaves the state alone
where `exportToPDF` is outside the embedding. -/
def System.step (p : Platform) (sys : System) : Event → System
  | .selectFile files => sys.after .upload (handleResumeUploadStart sys.ui files)
  | .dropFile files => sys.after .upload (handleDropStart sys.ui files)
  | .toggleRecord => sys.after .voice (toggleRecordingStart p sys.ui)
  | .recognizerStarted => { sys with ui := onstart sys.ui }
  | .recognizerResult ev => { sys with ui := onresult ev sys.ui }
  | .recognizerError code => { sys with ui := (onerror code sys.ui).state }
  | .exportClick =>
    match exportToPDF sys.ui with
    | some t => { sys with ui := t.state }
    | none => sys
  | .dismissClick => { sys with ui := dismissError sys.ui }
  | .completion i o =>
    match sys.inFlight.get? i with
    | some .upload =>
      { ui := (processFileSettle sys.ui o).state, inFlight := sys.inFlight.eraseIdx i }
    | some .voice =>
      { ui := (stopRecordingSettle sys.ui o).state, inFlight := sys.inFlight.eraseIdx i }
    | none => sys

/-- A sequence of events, from the left. -/
def System.run (p : Platform) (events : List Event) (sys : System) : System :=
  events.foldl (System.step p) sys

/-- An upload that succeeds with two questions, then an upload that fails with
status 500. -/
def successThenFailure : List Event :=
  [.selectFile [sampleFile], .completion 0 (.resolved ⟨200, some sampleBody⟩),
   .selectFile [sampleFile], .completion 0 (.resolved ⟨500, none⟩)]

/-! ## AuthContext.jsx -/

/-- The state of `AuthProvider`: `user` is `null` or the user object received from
the backend. -/
structure AuthState where
  user : JSVal
  loading : Bool
  error : Option String

/-- The initial values given to `useState`. -/
def AuthState.init : AuthState :=
  { user := .null, loading := true, error := none }

/-- Effects of the `AuthProvider` functions: a fetch with its `credentials` option,
a line on the console. -/
inductive AuthEffect where
  | fetch (req : Request) (credentials : String)
  | consoleError (label : String)

/-- What running a piece of an `AuthProvider` function gives. -/
structure AuthStep where
  state : AuthState
  effects : List AuthEffect
  thrown : Option JSError

/-- The request of `logout`. -/
def logoutRequest : Request :=
  { url := "http://localhost:5000/api/logout", method := "POST", headers := [], body := .empty }

/-- The function `logout` up to its `await fetch(...)` (lines 87 to 91). -/
def logoutStart (s : AuthState) : AuthStep :=
  { state := s, effects := [.fetch logoutRequest "include"], thrown := none }

/-- The function `logout` after its `await fetch(...)` (lines 92 to 95): when the
fetch resolves, whatever the status, `setUser(null)`; when it rejects, the `catch`
block logs. -/
def logoutSettle (s : AuthState) (o : FetchOutcome) : AuthStep :=
  match o with
  | .resolved _ => { state := { s with user := .null }, effects := [], thrown := none }
  | .rejected _ => { state := s, effects := [.consoleError "Logout error:"], thrown := none }

/-- The function `logout` run to completion against a fetch that settles as `o`. -/
def logout (s : AuthState) (o : FetchOutcome) : AuthStep :=
  let a := logoutStart s
  let b := logoutSettle a.state o
  { state := b.state, effects := a.effects ++ b.effects, thrown := b.thrown }

/-- A logged-in session. -/
def loggedIn : AuthState :=
  { user := .obj [("username", .str "ada"), ("email", .str "ada@example.org")], loading := false,
    error := none }

/-- A component with an upload in flight (isLoading true) in the middle of a
capture whose transcript is `hello`. -/
def loadingWhileCapturing : System :=
  { ui := { stateHeard with isLoading := true }, inFlight := [.upload] }

/-- A browser without the Web Speech API. -/
def noSpeechBrowser : Platform :=
  { webkitSpeechRecognition := false, speechRecognition := false }

/-- Two uploads in flight at once: a file is selected, a second one is dropped, the
first request fails with status 500, the second succeeds with two questions. -/
def interleavedUploads : List Event :=
  [.selectFile [sampleFile], .dropFile [sampleFile], .completion 0 (.resolved ⟨500, none⟩),
   .completion 0 (.resolved ⟨200, some sampleBody⟩)]

/-- A first capture that hears the final phrase `hello` and is submitted with
success, then the record button is clicked again: a second capture has started
and no recognizer callback has been delivered yet. -/
def secondCaptureStarted : List Event :=
  [.toggleRecord, .recognizerStarted, .recognizerResult (finalEvent "hello"), .toggleRecord,
   .completion 0 (.resolved ⟨200, some sampleBody⟩), .toggleRecord]

/-! ## Theorems -/

/-! ### Upload and voice submission -/

/-- The continuation of `processFile` on a 2xx response with both fields readable
stores exactly the two values read. -/
theorem processFileSettle_ok (s : QGState) (r : Response) (data q k : JSVal)
    (hok : r.ok = true) (hbody : r.body = some data)
    (hq : getField "questions" data = .ok q) (hk : getField "skills" data = .ok k) :
    processFileSettle s (.resolved r) =
      { state := { s with questions := q, skills := k, isLoading := false },
        effects := [], thrown := none } := by
  simp [processFileSettle, processFileTry, hok, hbody, hq, hk]

/-- The continuation of `processFile` on a failed fetch: the fixed message, loading
off, nothing else touched. -/
theorem processFileSettle_failed (s : QGState) (o : FetchOutcome) (hfail : o.failed = true) :
    processFileSettle s o =
      { state := { s with error := "Failed to process your resume. Please try again.",
                          isLoading := false },
        effects := [.consoleError "Error:"], thrown := none } := by
  cases o with
  | rejected e => simp [processFileSettle, processFileTry]
  | resolved r =>
    have hr : r.ok = false := by simpa [FetchOutcome.failed] using hfail
    simp [processFileSettle, processFileTry, hr]

/-- The continuation of `stopRecording` on a failed fetch: the fixed message,
loading off, nothing else touched. -/
theorem stopRecordingSettle_failed (s : QGState) (o : FetchOutcome) (hfail : o.failed = true) :
    stopRecordingSettle s o =
      { state := { s with error := "Failed to process your voice input. Please try again.",
                          isLoading := false },
        effects := [.consoleError "Error:"], thrown := none } := by
  cases o with
  | rejected e => simp [stopRecordingSettle, stopRecordingTry]
  | resolved r =>
    have hr : r.ok = false := by simpa [FetchOutcome.failed] using hfail
    simp [stopRecordingSettle, stopRecordingTry, hr]

/-- The handler `processFile` run without any other event between its start and
its completion: on a 2xx response whose body has the arrays of strings `qs` and
`ss` in its fields, it ends with questions `qs`, skills `ss`, isLoading false and
error empty, and throws nothing. -/
theorem processFile_uninterrupted (s : QGState) (file : File) (r : Response) (data : JSVal)
    (qs ss : List String) (hok : r.ok = true) (hbody : r.body = some data)
    (hq : getField "questions" data = .ok (strArr qs))
    (hk : getField "skills" data = .ok (strArr ss)) :
    (processFile s file (.resolved r)).state.questions = strArr qs ∧
    (processFile s file (.resolved r)).state.skills = strArr ss ∧
    (processFile s file (.resolved r)).state.isLoading = false ∧
    (processFile s file (.resolved r)).state.error = "" ∧
    (processFile s file (.resolved r)).thrown = none := by
  simp [processFile, Step.andThen, processFileStart, processFileSettle_ok _ r data _ _ hok hbody hq hk]

/-- C2: when the fetch rejects or the response is not 2xx, an upload ends with
isLoading false and the fixed upload message, and a voice submission (a
`stopRecording` whose transcript is not blank) ends with isLoading false and the
fixed voice message, whatever the reason of the failure. -/
theorem failed_request_sets_fixed_error (s : QGState) (file : File) (o : FetchOutcome)
    (hfail : o.failed = true) :
    ((processFile s file o).state.isLoading = false ∧
      (processFile s file o).state.error = "Failed to process your resume. Please try again.") ∧
    (truthy (jsTrim s.transcript) = true →
      (stopRecording s o).state.isLoading = false ∧
      (stopRecording s o).state.error = "Failed to process your voice input. Please try again.") := by
  refine ⟨?_, ?_⟩
  · simp [processFile, Step.andThen, processFileSettle_failed _ o hfail]
  · intro ht
    simp [stopRecording, ht, Step.andThen, stopRecordingSettle_failed _ o hfail]

/-- C2 at concrete inputs: a status 500 response, for an upload and for a voice
submission with transcript `hello`. -/
theorem failed_request_sets_fixed_error_witness :
    ((processFile stateCapturing sampleFile (.resolved ⟨500, none⟩)).state.isLoading = false ∧
      (processFile stateCapturing sampleFile (.resolved ⟨500, none⟩)).state.error
        = "Failed to process your resume. Please try again.") ∧
    ((stopRecording stateCapturing (.resolved ⟨500, none⟩)).state.isLoading = false ∧
      (stopRecording stateCapturing (.resolved ⟨500, none⟩)).state.error
        = "Failed to process your voice input. Please try again.") :=
  ⟨(failed_request_sets_fixed_error stateCapturing sampleFile (.resolved ⟨500, none⟩) rfl).1,
   (failed_request_sets_fixed_error stateCapturing sampleFile (.resolved ⟨500, none⟩) rfl).2
     (by decide)⟩

/-- C3 as stated fails: started from a state that shows results, both flows enter
Loading with the earlier questions still in the state. -/
theorem start_clears_results_counterexample :
    ¬ ((processFileStart stateWithResults sampleFile).state.error = "" ∧
        (processFileStart stateWithResults sampleFile).state.questions = .arr [] ∧
        (processFileStart stateWithResults sampleFile).state.skills = .arr []) ∧
    ¬ ((stopRecordingStart stateCapturing).state.error = "" ∧
        (stopRecordingStart stateCapturing).state.questions = .arr [] ∧
        (stopRecordingStart stateCapturing).state.skills = .arr []) := by
  have hu : (processFileStart stateWithResults sampleFile).state.questions = .arr [.str "Q1"] := rfl
  have hv : (stopRecordingStart stateCapturing).state.questions = .arr [.str "Q1"] := rfl
  constructor
  · rintro ⟨-, hq, -⟩
    rw [hu] at hq
    simp at hq
  · rintro ⟨-, hq, -⟩
    rw [hv] at hq
    simp at hq

/-- C3, amended: for every prior state, a producing request enters Loading
(isLoading true) with questions and skills unchanged; `processFile` also clears
the prior error. -/
theorem start_enters_loading_keeps_results (s : QGState) (file : File) :
    ((processFileStart s file).state.isLoading = true ∧
      (processFileStart s file).state.error = "" ∧
      (processFileStart s file).state.questions = s.questions ∧
      (processFileStart s file).state.skills = s.skills) ∧
    (truthy (jsTrim s.transcript) = true →
      (stopRecordingStart s).state.isLoading = true ∧
      (stopRecordingStart s).state.questions = s.questions ∧
      (stopRecordingStart s).state.skills = s.skills) := by
  refine ⟨by simp [processFileStart], ?_⟩
  intro ht
  cases hr : s.recognition <;> simp [stopRecordingStart, ht, hr]

/-- C3, amended, at a concrete input: a capture with transcript `hello` on top of
earlier results. -/
theorem start_enters_loading_keeps_results_witness :
    ((processFileStart stateCapturing sampleFile).state.isLoading = true ∧
      (processFileStart stateCapturing sampleFile).state.error = "" ∧
      (processFileStart stateCapturing sampleFile).state.questions = strArr ["Q1"] ∧
      (processFileStart stateCapturing sampleFile).state.skills = strArr ["SQL"]) ∧
    ((stopRecordingStart stateCapturing).state.isLoading = true ∧
      (stopRecordingStart stateCapturing).state.questions = strArr ["Q1"] ∧
      (stopRecordingStart stateCapturing).state.skills = strArr ["SQL"]) :=
  ⟨(start_enters_loading_keeps_results stateCapturing sampleFile).1,
   (start_enters_loading_keeps_results stateCapturing sampleFile).2 (by decide)⟩

/-- C4 on the code: a 2xx response whose body is the empty object makes both
flows store `undefined` in questions and skills and end with no error. -/
theorem empty_object_body_is_stored :
    ((processFile QGState.init sampleFile (.resolved ⟨200, some (.obj [])⟩)).state.questions
        = .undefined ∧
      (processFile QGState.init sampleFile (.resolved ⟨200, some (.obj [])⟩)).state.skills
        = .undefined ∧
      (processFile QGState.init sampleFile (.resolved ⟨200, some (.obj [])⟩)).state.error = "" ∧
      (processFile QGState.init sampleFile (.resolved ⟨200, some (.obj [])⟩)).state.isLoading
        = false) ∧
    ((stopRecording stateHeard (.resolved ⟨200, some (.obj [])⟩)).state.questions = .undefined ∧
      (stopRecording stateHeard (.resolved ⟨200, some (.obj [])⟩)).state.skills = .undefined ∧
      (stopRecording stateHeard (.resolved ⟨200, some (.obj [])⟩)).state.error = "" ∧
      (stopRecording stateHeard (.resolved ⟨200, some (.obj [])⟩)).state.isLoading = false) :=
  ⟨⟨rfl, rfl, rfl, rfl⟩, ⟨rfl, rfl, rfl, rfl⟩⟩

/-! ### Speech capture -/

/-- The loop of `onresult` appends the finalized fragments of the results it
visits to the first accumulator and the interim ones to the second. -/
theorem onresultLoop_eq (l : List SpeechResult) (f i : String) :
    onresultLoop l f i = (f ++ finalizedOf l, i ++ interimOf l) := by
  induction l generalizing f i with
  | nil => simp [onresultLoop, finalizedOf, interimOf]
  | cons r rest ih =>
    by_cases h : r.isFinal = true
    · simp [onresultLoop, finalizedOf, interimOf, h, ih, String.append_assoc]
    · simp [onresultLoop, finalizedOf, interimOf, h, ih, String.append_assoc]

/-- After `onresult` the transcript is made of the results of that event alone. -/
theorem onresult_transcript (ev : SpeechEvent) (s : QGState) :
    (onresult ev s).transcript = finalizedOf ev.delivered ++ interimOf ev.delivered := by
  simp [onresult, onresultLoop_eq, SpeechEvent.delivered]

/-- C5 on the code: after the final phrase `hello` and then an event whose change
starts at index 1 with the interim text `wor`, the transcript is `wor`, while the
finalized fragments followed by the latest interim text are `hello wor`. -/
theorem onresult_loses_earlier_final_text :
    (deliver [eventHelloFinal, eventWorInterim] (onstart (startRecording chrome QGState.init).state)).transcript
        = "wor" ∧
    specTranscript [eventHelloFinal, eventWorInterim] = "hello wor" := by
  constructor <;> decide

/-- A list all of whose elements satisfy `p` after `dropWhile p` is a list all of
whose elements satisfy `p`. -/
theorem dropWhile_all_iff {α : Type} (p : α → Bool) (l : List α) :
    (∀ x ∈ l.dropWhile p, p x = true) ↔ ∀ x ∈ l, p x = true := by
  induction l with
  | nil => simp
  | cons a t ih =>
    by_cases h : p a = true
    · simp [List.dropWhile_cons, h, ih]
    · simp [List.dropWhile_cons, h]

/-- The trimmed string is falsy exactly when the string is empty or made of white
space only. -/
theorem jsTrim_blank_iff (s : String) :
    truthy (jsTrim s) = false ↔ ∀ c ∈ s.toList, isJSWhiteSpace c = true := by
  unfold truthy jsTrim
  simp only [Bool.not_eq_false', beq_iff_eq, String.length, List.length_reverse,
    List.length_eq_zero, List.dropWhile_eq_nil_iff, List.mem_reverse]
  exact dropWhile_all_iff _ _

/-- The requests of two effect lists in sequence. -/
theorem requestsOf_append (a b : List Effect) :
    requestsOf (a ++ b) = requestsOf a ++ requestsOf b := by
  induction a with
  | nil => rfl
  | cons e rest ih => cases e <;> simp [requestsOf, ih]

/-- With a transcript that is not blank, `stopRecording` issues the voice request
for the transcript as it stands, and nothing else goes to the network. -/
theorem stopRecording_requests (s : QGState) (o : FetchOutcome)
    (ht : truthy (jsTrim s.transcript) = true) :
    requestsOf (stopRecording s o).effects = [voiceRequest s.transcript] := by
  have hsettle (s1 : QGState) : requestsOf (stopRecordingSettle s1 o).effects = [] := by
    unfold stopRecordingSettle
    split <;> rfl
  cases hr : s.recognition <;>
    simp [stopRecording, ht, Step.andThen, requestsOf_append, hsettle, stopRecordingStart, hr,
      requestsOf]

/-- With a blank transcript, `stopRecording` stops the recognizer, if any, turns
recording off and sets the no-speech message; nothing else changes. -/
theorem stopRecording_blank (s : QGState) (o : FetchOutcome)
    (ht : truthy (jsTrim s.transcript) = false) :
    (stopRecording s o).state =
      { s with recognition := none, isRecording := false,
               error := "No speech detected. Please try again." } ∧
    requestsOf (stopRecording s o).effects = [] := by
  cases hr : s.recognition <;> simp [stopRecording, ht, stopRecordingStart, hr, requestsOf]

/-- The step of `stopRecording` before the request leaves the error as it was. -/
theorem stopRecordingStart_error (s : QGState) (ht : truthy (jsTrim s.transcript) = true) :
    (stopRecordingStart s).state.error = s.error := by
  cases hr : s.recognition <;> simp [stopRecordingStart, ht, hr]

/-- C6 as stated fails: after start, the interim text `hel` and then a final result
whose text is `hello world` followed by a space, the request does not carry that
text: the handler has appended its separator, so two spaces are submitted. -/
theorem submitted_transcript_counterexample :
    requestsOf (stopRecording
        (deliver [interimEvent "hel", finalEvent "hello world "]
          (onstart (startRecording chrome QGState.init).state))
        (.resolved ⟨200, some sampleBody⟩)).effects
      = [voiceRequest "hello world  "] ∧
    voiceRequest "hello world  " ≠ voiceRequest "hello world " := by
  refine ⟨rfl, ?_⟩
  simp [voiceRequest]

/-- C6, amended: for every transcript that is not empty after trimming,
`stopRecording` issues exactly one request, a POST to `/api/process-voice-public`
whose JSON body has the single field `transcription` holding the transcript
untrimmed and unmodified; and after start (on any platform, from any state), the
interim text `hel` and then the
final result `hello world`, the submitted transcription is `hello world` followed
by the one space that `onresult` appends. -/
theorem stopRecording_submits_transcript (s : QGState) (o : FetchOutcome) (p : Platform)
    (ht : truthy (jsTrim s.transcript) = true) :
    requestsOf (stopRecording s o).effects =
      [{ url := "http://localhost:5000/api/process-voice-public", method := "POST",
         headers := [("Content-Type", "application/json")],
         body := .json (.obj [("transcription", .str s.transcript)]) }] ∧
    requestsOf (stopRecording
        (deliver [interimEvent "hel", finalEvent "hello world"] (onstart (startRecording p s).state))
        o).effects =
      [{ url := "http://localhost:5000/api/process-voice-public", method := "POST",
         headers := [("Content-Type", "application/json")],
         body := .json (.obj [("transcription", .str "hello world ")]) }] := by
  refine ⟨stopRecording_requests s o ht, ?_⟩
  have htr : (deliver [interimEvent "hel", finalEvent "hello world"]
      (onstart (startRecording p s).state)).transcript = "hello world " := by
    simp only [deliver, List.foldl, onresult_transcript]
    decide
  have h := stopRecording_requests
    (deliver [interimEvent "hel", finalEvent "hello world"] (onstart (startRecording p s).state)) o
    (by rw [htr]; decide)
  rw [h, htr]
  rfl

/-- C6, amended, at a concrete input: the capture state with transcript `hello`. -/
theorem stopRecording_submits_transcript_witness :
    requestsOf (stopRecording stateHeard (.resolved ⟨200, some sampleBody⟩)).effects =
      [{ url := "http://localhost:5000/api/process-voice-public", method := "POST",
         headers := [("Content-Type", "application/json")],
         body := .json (.obj [("transcription", .str "hello")]) }] ∧
    requestsOf (stopRecording
        (deliver [interimEvent "hel", finalEvent "hello world"]
          (onstart (startRecording chrome stateHeard).state))
        (.resolved ⟨200, some sampleBody⟩)).effects =
      [{ url := "http://localhost:5000/api/process-voice-public", method := "POST",
         headers := [("Content-Type", "application/json")],
         body := .json (.obj [("transcription", .str "hello world ")]) }] :=
  stopRecording_submits_transcript stateHeard (.resolved ⟨200, some sampleBody⟩) chrome
    (by decide)

/-- A `stopRecording` on a transcript that is empty or made of white space only,
whatever a fetch would answer: no request, isLoading, questions and skills as they
were, isRecording false, the no-speech message.  The transcript is in that case
for a fresh component stopped right after start, and for any component stopped
after the recognizer has reported its start (`onstart`). -/
theorem stopRecording_blank_transcript (s : QGState) (o : FetchOutcome) (p : Platform)
    (hblank : ∀ c ∈ s.transcript.toList, isJSWhiteSpace c = true) :
    (requestsOf (stopRecording s o).effects = [] ∧
      requestsOf (stopRecordingStart s).effects = [] ∧
      (stopRecordingStart s).state.isLoading = s.isLoading ∧
      (stopRecording s o).state.isLoading = s.isLoading ∧
      (stopRecording s o).state.questions = s.questions ∧
      (stopRecording s o).state.skills = s.skills ∧
      (stopRecording s o).state.isRecording = false ∧
      (stopRecording s o).state.error = "No speech detected. Please try again.") ∧
    (requestsOf (stopRecording (startRecording p QGState.init).state o).effects = [] ∧
      (stopRecording (startRecording p QGState.init).state o).state.error
        = "No speech detected. Please try again.") ∧
    (requestsOf (stopRecording (onstart (startRecording p s).state) o).effects = [] ∧
      (stopRecording (onstart (startRecording p s).state) o).state.error
        = "No speech detected. Please try again.") := by
  have key (t : QGState) (h : truthy (jsTrim t.transcript) = false) :
      requestsOf (stopRecording t o).effects = [] ∧
      (stopRecording t o).state.error = "No speech detected. Please try again." := by
    have := stopRecording_blank t o h
    exact ⟨this.2, by rw [this.1]⟩
  have ht : truthy (jsTrim s.transcript) = false := (jsTrim_blank_iff _).2 hblank
  have hs := stopRecording_blank s o ht
  have hstart : stopRecording s o = stopRecordingStart s := by simp [stopRecording, ht]
  refine ⟨⟨hs.2, ?_, ?_, ?_, ?_, ?_, ?_, ?_⟩, key _ ?_, key _ ?_⟩
  · rw [← hstart]; exact hs.2
  · rw [← hstart, hs.1]
  · rw [hs.1]
  · rw [hs.1]
  · rw [hs.1]
  · rw [hs.1]
  · rw [hs.1]
  · have : (startRecording p QGState.init).state.transcript = "" := by
      unfold startRecording; split <;> rfl
    rw [this]; decide
  · have : (onstart (startRecording p s).state).transcript = "" := rfl
    rw [this]; decide

/-! ### Export -/

/-- The accumulator of `String.intercalate` comes out in front. -/
theorem intercalate_go_acc (sep : String) (l : List String) (acc : String) :
    String.intercalate.go acc sep l = acc ++ String.intercalate.go "" sep l := by
  induction l generalizing acc with
  | nil => simp [String.intercalate.go]
  | cons a l ih =>
    rw [String.intercalate.go, ih (acc ++ sep ++ a), String.intercalate.go, ih ("" ++ sep ++ a)]
    simp [String.append_assoc]

/-- Unfolding `String.intercalate` on a list of two or more strings. -/
theorem intercalate_cons_cons (sep a b : String) (rest : List String) :
    sep.intercalate (a :: b :: rest) = a ++ sep ++ sep.intercalate (b :: rest) := by
  simp only [String.intercalate, String.intercalate.go]
  rw [intercalate_go_acc sep rest (a ++ sep ++ b), intercalate_go_acc sep rest b]
  simp [String.append_assoc]

/-- On an array of strings `join` is `String.intercalate`. -/
theorem jsJoin_strings (sep : String) (ss : List String) :
    jsJoin sep (ss.map .str) = .ok (sep.intercalate ss) := by
  induction ss with
  | nil => rfl
  | cons a rest ih =>
    cases rest with
    | nil => simp [jsJoin, jsElemString, jsToString, String.intercalate, String.intercalate.go]
    | cons b rest =>
      rw [intercalate_cons_cons]
      simp only [List.map_cons] at ih ⊢
      simp [jsJoin, ih, jsElemString, jsToString]

/-- The `forEach` loop on strings: question `i` becomes the line numbered `i + 1` at
height `75 + 10 * i`, in list order. -/
theorem writeQuestions_strings (qs : List String) (index currentY : Nat) (doc : PdfDoc)
    (hy : currentY = 75 + 10 * index) :
    writeQuestions (qs.map .str) index currentY doc =
      .ok { fontSize := if qs = [] then doc.fontSize else 10,
            items := doc.items ++ (qs.enumFrom index).map (fun iq =>
              { text := toString (iq.1 + 1) ++ ". " ++ iq.2, x := 15, y := 75 + 10 * iq.1,
                fontSize := 10, align := .left }) } := by
  induction qs generalizing index currentY doc with
  | nil => simp [writeQuestions]
  | cons q rest ih =>
    simp only [List.map_cons, writeQuestions, jsToString]
    rw [ih (index + 1) (currentY + 10) _ (by omega)]
    simp [PdfDoc.text, PdfDoc.setFontSize, List.enumFrom_cons, hy]

/-- The document built from arrays of strings. -/
theorem buildDocument_strings (qs ss : List String) (hne : qs ≠ []) :
    buildDocument (qs.map .str) (ss.map .str) =
      .ok { fontSize := 10,
            items :=
              [{ text := "Generated Interview Questions", x := 105, y := 20, fontSize := 20,
                 align := .center }] ++
              (if ss = [] then []
               else [{ text := "Skills:", x := 15, y := 35, fontSize := 12, align := .left },
                     { text := ", ".intercalate ss, x := 15, y := 45, fontSize := 10,
                       align := .left }]) ++
              [{ text := "Questions:", x := 15, y := 65, fontSize := 12, align := .left }] ++
              qs.enum.map (fun iq =>
                { text := toString (iq.1 + 1) ++ ". " ++ iq.2, x := 15, y := 75 + 10 * iq.1,
                  fontSize := 10, align := .left }) } := by
  unfold buildDocument writeSkills
  by_cases hss : ss = []
  · subst hss
    simp [writeQuestions_strings, hne, PdfDoc.text, PdfDoc.setFontSize, PdfDoc.new, List.enum]
  · have hlen : 0 < ss.length := List.length_pos.2 hss
    simp [jsJoin_strings, writeQuestions_strings, hne, hss, hlen, PdfDoc.text,
      PdfDoc.setFontSize, PdfDoc.new, List.enum]

/-- The handler `exportToPDF` on a non-empty array of questions and an array of
skills: what `buildDocument` gives decides the result. -/
theorem exportToPDF_arrays (s : QGState) (questions skills : List JSVal)
    (hq : s.questions = .arr questions) (hk : s.skills = .arr skills) (hne : questions ≠ []) :
    exportToPDF s =
      match buildDocument questions skills with
      | .error e => some { state := s, effects := [], thrown := some e }
      | .ok doc =>
        some { state := s, effects := [.savePdf "interview-questions.pdf" doc], thrown := none } := by
  have hlen : questions.length ≠ 0 := by simpa using hne
  simp only [exportToPDF, hq, hk, hlen, if_false]

/-- C8: `exportToPDF` on an empty questions array, whatever skills holds, sets the
nothing-to-export message and has no effect at all (no document, no file); on a
non-empty array of questions (and an array of skills) it leaves the state, hence
error, untouched and saves exactly one document, `interview-questions.pdf`. -/
theorem exportToPDF_fails_iff_no_questions (s : QGState) (qs ss : List String) :
    (s.questions = .arr [] →
      exportToPDF s =
        some { state := { s with error := "No questions to export. Please generate questions first." },
               effects := [], thrown := none }) ∧
    (qs ≠ [] → s.questions = strArr qs → s.skills = strArr ss →
      ∃ doc, exportToPDF s =
        some { state := s, effects := [.savePdf "interview-questions.pdf" doc], thrown := none }) := by
  constructor
  · intro hq
    simp [exportToPDF, hq]
  · intro hne hq hk
    have hne2 : qs.map JSVal.str ≠ [] := by simpa using hne
    rw [exportToPDF_arrays s _ _ hq hk hne2, buildDocument_strings qs ss hne]
    exact ⟨_, rfl⟩

/-- C8 at concrete inputs: the initial state with skills set to `undefined` (no
questions), and a state with two questions and one skill. -/
theorem exportToPDF_fails_iff_no_questions_witness :
    exportToPDF { QGState.init with skills := .undefined } =
      some { state := { QGState.init with
                          skills := .undefined,
                          error := "No questions to export. Please generate questions first." },
             effects := [], thrown := none } ∧
    ∃ doc, exportToPDF stateTwoQuestions =
      some { state := stateTwoQuestions, effects := [.savePdf "interview-questions.pdf" doc],
             thrown := none } :=
  ⟨(exportToPDF_fails_iff_no_questions { QGState.init with skills := .undefined } [] []).1 rfl,
   (exportToPDF_fails_iff_no_questions stateTwoQuestions ["Q1", "Q2"] ["SQL"]).2
     (by simp) rfl rfl⟩

/-- C9 as stated fails: for questions `Q1`, `Q2` and the skill `SQL` the text items
written are not the title, the skills line and the two question lines alone: the
section labels `Skills:` and `Questions:` are written too. -/
theorem exported_texts_counterexample :
    writtenTexts stateTwoQuestions =
      ["Generated Interview Questions", "Skills:", "SQL", "Questions:", "1. Q1", "2. Q2"] ∧
    writtenTexts stateTwoQuestions ≠ ["Generated Interview Questions", "SQL", "1. Q1", "2. Q2"] := by
  have h : writtenTexts stateTwoQuestions =
      ["Generated Interview Questions", "Skills:", "SQL", "Questions:", "1. Q1", "2. Q2"] := rfl
  refine ⟨h, ?_⟩
  rw [h]
  decide

/-- C9, amended: for every non-empty list of questions and every list of skills,
`exportToPDF` saves one document whose text items are, in order: the title; when
skills is non-empty, the label `Skills:` and the skills joined by a comma and a
space on one line; the label `Questions:`; then for each 0-based index `i` the line
made of `i + 1`, a dot, a space and question `i`, at height `75 + 10 * i`, in list
order with no question skipped, repeated or reordered. -/
theorem exportToPDF_document (s : QGState) (qs ss : List String) (hne : qs ≠ [])
    (hq : s.questions = strArr qs) (hk : s.skills = strArr ss) :
    exportToPDF s =
      some { state := s,
             effects := [.savePdf "interview-questions.pdf"
               { fontSize := 10,
                 items :=
                   [{ text := "Generated Interview Questions", x := 105, y := 20, fontSize := 20,
                      align := .center }] ++
                   (if ss = [] then []
                    else [{ text := "Skills:", x := 15, y := 35, fontSize := 12, align := .left },
                          { text := ", ".intercalate ss, x := 15, y := 45, fontSize := 10,
                            align := .left }]) ++
                   [{ text := "Questions:", x := 15, y := 65, fontSize := 12, align := .left }] ++
                   qs.enum.map (fun iq =>
                     { text := toString (iq.1 + 1) ++ ". " ++ iq.2, x := 15, y := 75 + 10 * iq.1,
                       fontSize := 10, align := .left }) }],
             thrown := none } := by
  have hne2 : qs.map JSVal.str ≠ [] := by simpa using hne
  rw [exportToPDF_arrays s _ _ hq hk hne2, buildDocument_strings qs ss hne]

/-- C9, amended, at the input of the specification: questions `Q1`, `Q2` and the
skill `SQL`. -/
theorem exportToPDF_document_witness :
    exportToPDF stateTwoQuestions =
      some { state := stateTwoQuestions,
             effects := [.savePdf "interview-questions.pdf"
               { fontSize := 10,
                 items :=
                   [{ text := "Generated Interview Questions", x := 105, y := 20, fontSize := 20,
                      align := .center },
                    { text := "Skills:", x := 15, y := 35, fontSize := 12, align := .left },
                    { text := "SQL", x := 15, y := 45, fontSize := 10, align := .left },
                    { text := "Questions:", x := 15, y := 65, fontSize := 12, align := .left },
                    { text := "1. Q1", x := 15, y := 75, fontSize := 10, align := .left },
                    { text := "2. Q2", x := 15, y := 85, fontSize := 10, align := .left }] }],
             thrown := none } :=
  exportToPDF_document stateTwoQuestions ["Q1", "Q2"] ["SQL"] (by simp) rfl rfl

/-! ### History -/

/-- The handler `fetchHistory` on a 2xx response with a JSON body: the history is
the body when it is an array and the empty list otherwise, the modal is opened,
loading is off, and nothing is thrown. -/
theorem fetchHistory_ok (s : NavbarState) (r : Response) (data : JSVal)
    (hok : r.ok = true) (hbody : r.body = some data) :
    fetchHistory s (.resolved r) =
      { state := { s with history := arrayOrEmpty data, showHistory := true, isLoading := false },
        effects := [.fetch historyRequest, .consoleLog "Fetched history:" data],
        thrown := none } := by
  have htry (s1 : NavbarState) : fetchHistoryTry s1 (.resolved r) =
      ({ s1 with history := arrayOrEmpty data, showHistory := true },
       [.consoleLog "Fetched history:" data], none) := by
    simp only [fetchHistoryTry, hok, hbody, Bool.not_true, Bool.false_eq_true, if_false]
  simp only [fetchHistory, fetchHistorySettle, htry, fetchHistoryStart, List.singleton_append]

/-- C10: for every 2xx history response with a JSON body, `fetchHistory` throws
nothing, opens the history view and ends with isLoading false; when the body is
not an array the history is the empty list and the modal shows the empty list;
when the body is an array the history is that array unchanged. -/
theorem fetchHistory_non_array_is_empty (s : NavbarState) (r : Response) (data : JSVal)
    (hok : r.ok = true) (hbody : r.body = some data) :
    (fetchHistory s (.resolved r)).thrown = none ∧
    (fetchHistory s (.resolved r)).state.showHistory = true ∧
    (fetchHistory s (.resolved r)).state.isLoading = false ∧
    (isArray data = false →
      (fetchHistory s (.resolved r)).state.history = [] ∧
      historyModal (fetchHistory s (.resolved r)).state = .noHistory) ∧
    (∀ items, data = .arr items → (fetchHistory s (.resolved r)).state.history = items) := by
  rw [fetchHistory_ok s r data hok hbody]
  refine ⟨rfl, rfl, rfl, ?_, ?_⟩
  · intro hna
    cases data <;> simp [isArray, historyModal, arrayOrEmpty] at hna ⊢
  · intro items hd
    subst hd
    rfl

/-- C10 at concrete inputs: a status 200 response whose body is an object, and one
whose body is an array of two entries, on top of an older history. -/
theorem fetchHistory_non_array_is_empty_witness :
    ((fetchHistory { NavbarState.init with history := [.null] }
        (.resolved ⟨200, some (.obj [("error", .str "no history")])⟩)).thrown = none ∧
      (fetchHistory { NavbarState.init with history := [.null] }
        (.resolved ⟨200, some (.obj [("error", .str "no history")])⟩)).state.history = [] ∧
      historyModal (fetchHistory { NavbarState.init with history := [.null] }
        (.resolved ⟨200, some (.obj [("error", .str "no history")])⟩)).state = .noHistory) ∧
    (fetchHistory NavbarState.init
        (.resolved ⟨200, some (.arr [.obj [("questions", strArr ["Q1"])], .num "7"])⟩)).state.history
      = [.obj [("questions", strArr ["Q1"])], .num "7"] :=
  ⟨⟨(fetchHistory_non_array_is_empty { NavbarState.init with history := [.null] }
        ⟨200, some (.obj [("error", .str "no history")])⟩ _ rfl rfl).1,
    ((fetchHistory_non_array_is_empty { NavbarState.init with history := [.null] }
        ⟨200, some (.obj [("error", .str "no history")])⟩ _ rfl rfl).2.2.2.1 rfl).1,
    ((fetchHistory_non_array_is_empty { NavbarState.init with history := [.null] }
        ⟨200, some (.obj [("error", .str "no history")])⟩ _ rfl rfl).2.2.2.1 rfl).2⟩,
   (fetchHistory_non_array_is_empty NavbarState.init
        ⟨200, some (.arr [.obj [("questions", strArr ["Q1"])], .num "7"])⟩ _ rfl rfl).2.2.2.2
      _ rfl⟩

/-! ### Display states and requests in flight -/

/-- Whatever `render` displays, the loading indicator and the results panel are
not both in it. -/
theorem render_exclusive (s : QGState) (v : View) (hv : render s = some (.ok v)) :
    ¬ (v.loadingIndicator = true ∧ v.resultsPanel.isSome = true) := by
  rintro ⟨hl, hr⟩
  unfold render at hv
  cases hq : s.questions with
  | arr questions =>
    rw [hq] at hv
    by_cases hc : (decide (questions.length > 0) && !s.isLoading) = true
    · have hload : s.isLoading = false := by simpa using (Bool.and_eq_true_iff.1 hc).2
      cases hk : s.skills with
      | arr skills =>
        simp only [hc, hk, if_true] at hv
        by_cases hvc : (validChildren (if skills.length > 0 then skills else []) &&
            validChildren questions) = true
        · simp only [hvc, if_true, Option.some.injEq, Except.ok.injEq] at hv
          subst hv
          simp [hload] at hl
        · simp [hvc] at hv
      | _ => simp [hc, hk] at hv
    · simp only [hc] at hv
      simp only [Option.some.injEq, Except.ok.injEq, Bool.false_eq_true, if_false] at hv
      subst hv
      simp at hr
  | _ => simp [hq] at hv

/-- The continuation of `processFile` always ends with loading off. -/
theorem processFileSettle_isLoading (s : QGState) (o : FetchOutcome) :
    (processFileSettle s o).state.isLoading = false := by
  unfold processFileSettle
  split <;> rfl

/-- The continuation of `stopRecording` always ends with loading off. -/
theorem stopRecordingSettle_isLoading (s : QGState) (o : FetchOutcome) :
    (stopRecordingSettle s o).state.isLoading = false := by
  unfold stopRecordingSettle
  split <;> rfl

/-- A position below the number of requests in flight holds a request. -/
theorem inFlight_get (l : List Pending) (i : Nat) (hi : i < l.length) :
    l.get? i = some .upload ∨ l.get? i = some .voice := by
  rw [List.get?_eq_get hi]
  cases l.get ⟨i, hi⟩ <;> simp

/-- C11 as stated fails: after an upload that succeeds and an upload that fails,
with nothing in flight and isLoading false, error is non-empty and the questions
of the first upload are still present. -/
theorem error_and_results_counterexample :
    (System.run chrome successThenFailure System.init).inFlight = [] ∧
    (System.run chrome successThenFailure System.init).ui.isLoading = false ∧
    (System.run chrome successThenFailure System.init).ui.error
      = "Failed to process your resume. Please try again." ∧
    (System.run chrome successThenFailure System.init).ui.questions = strArr ["Q1", "Q2"] ∧
    render (System.run chrome successThenFailure System.init).ui =
      some (.ok { errorBanner := some "Failed to process your resume. Please try again.",
                  loadingIndicator := false,
                  resultsPanel := some ([.str "SQL"], [.str "Q1", .str "Q2"]) }) :=
  ⟨rfl, rfl, rfl, rfl, rfl⟩

/-- C11, amended: in every state reachable from the initial state by a sequence of
events, the loading indicator and the results panel are never displayed together;
every completion of a request in flight leaves isLoading false; and a failed
completion sets a non-empty error while keeping the stored questions and skills,
so that error and results are not exclusive. -/
theorem loading_and_results_exclusive (p : Platform) (events : List Event) (i : Nat)
    (o : FetchOutcome) :
    (∀ v, render (System.run p events System.init).ui = some (.ok v) →
      ¬ (v.loadingIndicator = true ∧ v.resultsPanel.isSome = true)) ∧
    (i < (System.run p events System.init).inFlight.length →
      ((System.run p events System.init).step p (.completion i o)).ui.isLoading = false) ∧
    (i < (System.run p events System.init).inFlight.length → o.failed = true →
      truthy ((System.run p events System.init).step p (.completion i o)).ui.error = true ∧
      ((System.run p events System.init).step p (.completion i o)).ui.questions
        = (System.run p events System.init).ui.questions ∧
      ((System.run p events System.init).step p (.completion i o)).ui.skills
        = (System.run p events System.init).ui.skills) := by
  generalize System.run p events System.init = sys
  refine ⟨fun v hv => render_exclusive _ v hv, ?_, ?_⟩
  · intro hi
    rcases inFlight_get _ i hi with h | h
    · have hstep : (sys.step p (.completion i o)).ui = (processFileSettle sys.ui o).state := by
        simp only [System.step, h]
      rw [hstep, processFileSettle_isLoading]
    · have hstep : (sys.step p (.completion i o)).ui = (stopRecordingSettle sys.ui o).state := by
        simp only [System.step, h]
      rw [hstep, stopRecordingSettle_isLoading]
  · intro hi hfail
    rcases inFlight_get _ i hi with h | h
    · have hstep : (sys.step p (.completion i o)).ui = (processFileSettle sys.ui o).state := by
        simp only [System.step, h]
      rw [hstep, processFileSettle_failed _ o hfail]
      exact ⟨(by decide : truthy "Failed to process your resume. Please try again." = true),
        rfl, rfl⟩
    · have hstep : (sys.step p (.completion i o)).ui = (stopRecordingSettle sys.ui o).state := by
        simp only [System.step, h]
      rw [hstep, stopRecordingSettle_failed _ o hfail]
      exact ⟨(by decide : truthy "Failed to process your voice input. Please try again." = true),
        rfl, rfl⟩

/-- C11, amended, at a concrete input: a successful upload followed by a second
upload still in flight, which then fails with status 500. -/
theorem loading_and_results_exclusive_witness :
    ¬ ((⟨none, true, none⟩ : View).loadingIndicator = true ∧
        (⟨none, true, none⟩ : View).resultsPanel.isSome = true) ∧
    ((System.run chrome (successThenFailure.take 3) System.init).step chrome
        (.completion 0 (.resolved ⟨500, none⟩))).ui.isLoading = false ∧
    (truthy ((System.run chrome (successThenFailure.take 3) System.init).step chrome
        (.completion 0 (.resolved ⟨500, none⟩))).ui.error = true ∧
      ((System.run chrome (successThenFailure.take 3) System.init).step chrome
        (.completion 0 (.resolved ⟨500, none⟩))).ui.questions
        = (System.run chrome (successThenFailure.take 3) System.init).ui.questions ∧
      ((System.run chrome (successThenFailure.take 3) System.init).step chrome
        (.completion 0 (.resolved ⟨500, none⟩))).ui.skills
        = (System.run chrome (successThenFailure.take 3) System.init).ui.skills) :=
  ⟨(loading_and_results_exclusive chrome (successThenFailure.take 3) 0
      (.resolved ⟨500, none⟩)).1 ⟨none, true, none⟩ rfl,
   (loading_and_results_exclusive chrome (successThenFailure.take 3) 0
      (.resolved ⟨500, none⟩)).2.1 (by decide),
   (loading_and_results_exclusive chrome (successThenFailure.take 3) 0
      (.resolved ⟨500, none⟩)).2.2 (by decide) rfl⟩

/-- The part of `processFile` before the request issues one request. -/
theorem processFileStart_requests (s : QGState) (file : File) :
    requestsOf (processFileStart s file).effects = [uploadRequest file] := rfl

/-- The part of `stopRecording` before the request issues at most one request. -/
theorem stopRecordingStart_requests_le (s : QGState) :
    (requestsOf (stopRecordingStart s).effects).length ≤ 1 := by
  unfold stopRecordingStart
  cases s.recognition <;> by_cases ht : truthy (jsTrim s.transcript) = true <;>
    simp [ht, requestsOf, requestsOf_append]

/-- With a transcript that is not blank, the part of `stopRecording` before the
request issues the voice request. -/
theorem stopRecording_requests_start (s : QGState) (ht : truthy (jsTrim s.transcript) = true) :
    requestsOf (stopRecordingStart s).effects = [voiceRequest s.transcript] := by
  cases hr : s.recognition <;>
    simp [stopRecordingStart, ht, hr, requestsOf_append, requestsOf]

/-- The handler `startRecording` issues no request. -/
theorem startRecording_requests (p : Platform) (s : QGState) :
    requestsOf (startRecording p s).effects = [] := by
  unfold startRecording
  split <;> rfl

/-- C12 as stated fails: a file dropped while the request of an earlier drop is in
flight, with isLoading true, starts a second request. -/
theorem second_request_counterexample :
    (System.run chrome [.dropFile [sampleFile]] System.init).ui.isLoading = true ∧
    (System.run chrome [.dropFile [sampleFile]] System.init).inFlight = [.upload] ∧
    (System.run chrome [.dropFile [sampleFile], .dropFile [sampleFile]] System.init).inFlight
      = [.upload, .upload] := by
  decide

/-- C12, amended: in every state, hence along every sequence of events, an event
initiates at most one producing request, and isLoading plays no part: a file
selection or a drop that carries a file adds exactly one upload to the requests in
flight, a record toggle adds exactly one voice submission when it stops a capture
whose transcript is not blank, and none when it starts a capture. -/
theorem each_event_starts_at_most_one_request (p : Platform) (sys : System) (ev : Event)
    (file : File) (rest : List File) :
    (sys.step p ev).inFlight.length ≤ sys.inFlight.length + 1 ∧
    (sys.step p (.selectFile (file :: rest))).inFlight = sys.inFlight ++ [.upload] ∧
    (sys.step p (.dropFile (file :: rest))).inFlight = sys.inFlight ++ [.upload] ∧
    (sys.ui.isRecording = true → truthy (jsTrim sys.ui.transcript) = true →
      (sys.step p .toggleRecord).inFlight = sys.inFlight ++ [.voice]) ∧
    (sys.ui.isRecording = false → (sys.step p .toggleRecord).inFlight = sys.inFlight) := by
  refine ⟨?_, ?_, ?_, ?_, ?_⟩
  · cases ev with
    | selectFile files =>
      cases files <;>
        simp [System.step, System.after, handleResumeUploadStart, processFileStart_requests,
          requestsOf]
    | dropFile files =>
      cases files <;>
        simp [System.step, System.after, handleDropStart, Step.andThen, requestsOf_append,
          processFileStart_requests, requestsOf]
    | toggleRecord =>
      by_cases hr : sys.ui.isRecording = true
      · have := stopRecordingStart_requests_le sys.ui
        simpa [System.step, System.after, toggleRecordingStart, hr] using this
      · simp [System.step, System.after, toggleRecordingStart, hr, startRecording_requests]
    | recognizerStarted => simp [System.step]
    | recognizerResult e => simp [System.step]
    | recognizerError code => simp [System.step]
    | exportClick =>
      simp only [System.step]
      split <;> simp
    | dismissClick => simp [System.step]
    | completion i o =>
      simp only [System.step]
      split <;> simp [List.length_eraseIdx] <;> split <;> omega
  · simp [System.step, System.after, handleResumeUploadStart, processFileStart_requests]
  · simp [System.step, System.after, handleDropStart, Step.andThen, requestsOf_append,
      processFileStart_requests, requestsOf]
  · intro hr ht
    simp [System.step, System.after, toggleRecordingStart, hr,
      stopRecording_requests_start sys.ui ht]
  · intro hr
    simp [System.step, System.after, toggleRecordingStart, hr, startRecording_requests]

/-- C12, amended, at concrete inputs: a component with an upload in flight and
isLoading true, in the middle of a capture, receives a file and a record toggle;
a fresh component receives a record toggle. -/
theorem each_event_starts_at_most_one_request_witness :
    (loadingWhileCapturing.step chrome (.dropFile [sampleFile])).inFlight.length ≤ 1 + 1 ∧
    (loadingWhileCapturing.step chrome (.selectFile [sampleFile])).inFlight = [.upload, .upload] ∧
    (loadingWhileCapturing.step chrome (.dropFile [sampleFile])).inFlight = [.upload, .upload] ∧
    (loadingWhileCapturing.step chrome .toggleRecord).inFlight = [.upload, .voice] ∧
    (System.init.step chrome .toggleRecord).inFlight = [] :=
  ⟨(each_event_starts_at_most_one_request chrome loadingWhileCapturing
      (.dropFile [sampleFile]) sampleFile []).1,
   (each_event_starts_at_most_one_request chrome loadingWhileCapturing
      (.dropFile [sampleFile]) sampleFile []).2.1,
   (each_event_starts_at_most_one_request chrome loadingWhileCapturing
      (.dropFile [sampleFile]) sampleFile []).2.2.1,
   (each_event_starts_at_most_one_request chrome loadingWhileCapturing
      (.dropFile [sampleFile]) sampleFile []).2.2.2.1 rfl (by decide),
   (each_event_starts_at_most_one_request chrome System.init
      (.dropFile [sampleFile]) sampleFile []).2.2.2.2 rfl⟩

/-! ### Capture start, recognizer errors, logout, error dismissal -/

/-- C13: on a platform that exposes neither `SpeechRecognition` nor
`webkitSpeechRecognition`, for every prior state `startRecording` ends with
isRecording false and the unsupported-browser message, starts and stores no
recognizer (no effect, `recognition` as before) and leaves transcript, questions,
skills, isLoading and dragActive unchanged. -/
theorem startRecording_unsupported (p : Platform) (s : QGState)
    (hw : p.webkitSpeechRecognition = false) (hs : p.speechRecognition = false) :
    startRecording p s =
      { state := { s with isRecording := false,
                          error := "Speech recognition is not supported in your browser." },
        effects := [], thrown := none } ∧
    (startRecording p s).state.isRecording = false ∧
    (startRecording p s).state.error = "Speech recognition is not supported in your browser." ∧
    (startRecording p s).state.recognition = s.recognition ∧
    (startRecording p s).state.transcript = s.transcript ∧
    (startRecording p s).state.questions = s.questions ∧
    (startRecording p s).state.skills = s.skills ∧
    (startRecording p s).state.isLoading = s.isLoading := by
  have h : startRecording p s =
      { state := { s with isRecording := false,
                          error := "Speech recognition is not supported in your browser." },
        effects := [], thrown := none } := by
    simp [startRecording, hw, hs]
  rw [h]
  exact ⟨rfl, rfl, rfl, rfl, rfl, rfl, rfl, rfl⟩

/-- C13 at a concrete input: a browser without the API, a state that shows earlier
results and an earlier error. -/
theorem startRecording_unsupported_witness :
    startRecording noSpeechBrowser stateWithResults =
      { state := { stateWithResults with
                     isRecording := false,
                     error := "Speech recognition is not supported in your browser." },
        effects := [], thrown := none } ∧
    (startRecording noSpeechBrowser stateWithResults).state.recognition = none ∧
    (startRecording noSpeechBrowser stateWithResults).state.questions = strArr ["Q1"] :=
  ⟨(startRecording_unsupported noSpeechBrowser stateWithResults rfl rfl).1,
   (startRecording_unsupported noSpeechBrowser stateWithResults rfl rfl).2.2.2.1,
   (startRecording_unsupported noSpeechBrowser stateWithResults rfl rfl).2.2.2.2.2.1⟩

/-- C14 as stated fails: after start, the interim text `hel` and then the error
`network`, the transcript is still `hel`, while no text has been finalized. -/
theorem onerror_keeps_interim_counterexample :
    (onerror "network"
        (deliver [interimEvent "hel"] (onstart (startRecording chrome QGState.init).state))
      ).state.transcript = "hel" ∧
    sessionFinalized [interimEvent "hel"] = "" := by
  decide

/-- C14, amended: for every recognizer error and every state, after `onerror`
isRecording is false, error is `Speech recognition error: ` followed by the error
code, and the transcript is the one before the error; nothing else changes
either. -/
theorem onerror_aborts_capture (code : String) (s : QGState) :
    (onerror code s).state.isRecording = false ∧
    (onerror code s).state.error = "Speech recognition error: " ++ code ∧
    (onerror code s).state.transcript = s.transcript ∧
    (onerror code s).state =
      { s with error := "Speech recognition error: " ++ code, isRecording := false } ∧
    (onerror code s).thrown = none :=
  ⟨rfl, rfl, rfl, rfl, rfl⟩

/-- The function `logout` clears the user whenever the fetch resolves, whatever
the status, and throws nothing. -/
theorem logout_resolved (s : AuthState) (r : Response) :
    (logout s (.resolved r)).state.user = .null ∧ (logout s (.resolved r)).thrown = none :=
  ⟨rfl, rfl⟩

/-- The function `logout` leaves the state as it was when the fetch rejects. -/
theorem logout_rejected (s : AuthState) (e : JSError) :
    (logout s (.rejected e)).state = s ∧ (logout s (.rejected e)).thrown = none :=
  ⟨rfl, rfl⟩

/-- C15 on the code: when the fetch of `logout` rejects, nothing is thrown and the
user of a logged-in session is still there; a response with status 500 clears
it. -/
theorem logout_rejected_keeps_user :
    (logout loggedIn (.rejected .typeError)).state.user
      = .obj [("username", .str "ada"), ("email", .str "ada@example.org")] ∧
    (logout loggedIn (.rejected .typeError)).thrown = none ∧
    (logout loggedIn (.resolved ⟨500, none⟩)).state.user = .null :=
  ⟨rfl, rfl, rfl⟩

/-- C16: for every state, dismissing the error sets error to the empty string and
leaves questions, skills, isLoading, isRecording, transcript, the stored
recognizer and dragActive unchanged; on a state whose error is already empty it
changes nothing, and dismissing twice is dismissing once. -/
theorem dismissError_frame (s : QGState) :
    (dismissError s).error = "" ∧
    (dismissError s).questions = s.questions ∧
    (dismissError s).skills = s.skills ∧
    (dismissError s).isLoading = s.isLoading ∧
    (dismissError s).isRecording = s.isRecording ∧
    (dismissError s).transcript = s.transcript ∧
    (dismissError s).recognition = s.recognition ∧
    (dismissError s).dragActive = s.dragActive ∧
    (s.error = "" → dismissError s = s) ∧
    dismissError (dismissError s) = dismissError s := by
  refine ⟨rfl, rfl, rfl, rfl, rfl, rfl, rfl, rfl, ?_, rfl⟩
  intro h
  cases s
  simp_all [dismissError]

/-- C16 at concrete inputs: a state with an error and results, and the initial
state, whose error is empty. -/
theorem dismissError_frame_witness :
    (dismissError stateWithResults).error = "" ∧
    (dismissError stateWithResults).questions = strArr ["Q1"] ∧
    dismissError QGState.init = QGState.init :=
  ⟨(dismissError_frame stateWithResults).1, (dismissError_frame stateWithResults).2.1,
   (dismissError_frame QGState.init).2.2.2.2.2.2.2.2.1 rfl⟩

/-! ### Completion of an upload among other events, a capture stopped early -/

/-- C1 as stated fails: with two uploads in flight, the first answered with status
500 and the second with a well-formed 200, the second call completes with its
questions and skills stored, isLoading false, nothing in flight, and error
non-empty. -/
theorem interleaved_upload_counterexample :
    (System.run chrome (interleavedUploads.take 3) System.init).inFlight = [.upload] ∧
    (System.run chrome interleavedUploads System.init).inFlight = [] ∧
    (System.run chrome interleavedUploads System.init).ui.questions = strArr ["Q1", "Q2"] ∧
    (System.run chrome interleavedUploads System.init).ui.skills = strArr ["SQL"] ∧
    (System.run chrome interleavedUploads System.init).ui.isLoading = false ∧
    (System.run chrome interleavedUploads System.init).ui.error
      = "Failed to process your resume. Please try again." ∧
    (System.run chrome interleavedUploads System.init).ui.error ≠ "" :=
  ⟨rfl, rfl, rfl, rfl, rfl, rfl, by decide⟩

/-- C1, amended: when the backend answers 2xx with a JSON body whose `questions`
and `skills` fields are the arrays of strings `qs` and `ss`, then in whatever state
the component is when the call completes, questions become `qs` and skills `ss`
(same elements, same order), isLoading becomes false, nothing is thrown, and error
is left as it is at that moment; `processFile` clears error when the call starts,
so a call that runs without another event in between ends with error empty.  The
same holds for a completion in the event loop, at any position of an upload in
flight. -/
theorem processFile_completion_stores_response (s : QGState) (file : File) (r : Response)
    (data : JSVal) (qs ss : List String) (p : Platform) (sys : System) (i : Nat)
    (hok : r.ok = true) (hbody : r.body = some data)
    (hq : getField "questions" data = .ok (strArr qs))
    (hk : getField "skills" data = .ok (strArr ss)) :
    ((processFileSettle s (.resolved r)).state.questions = strArr qs ∧
      (processFileSettle s (.resolved r)).state.skills = strArr ss ∧
      (processFileSettle s (.resolved r)).state.isLoading = false ∧
      (processFileSettle s (.resolved r)).state.error = s.error ∧
      (processFileSettle s (.resolved r)).thrown = none) ∧
    (processFileStart s file).state.error = "" ∧
    ((processFile s file (.resolved r)).state.questions = strArr qs ∧
      (processFile s file (.resolved r)).state.skills = strArr ss ∧
      (processFile s file (.resolved r)).state.isLoading = false ∧
      (processFile s file (.resolved r)).state.error = "" ∧
      (processFile s file (.resolved r)).thrown = none) ∧
    (sys.inFlight.get? i = some .upload →
      (sys.step p (.completion i (.resolved r))).ui.questions = strArr qs ∧
      (sys.step p (.completion i (.resolved r))).ui.skills = strArr ss ∧
      (sys.step p (.completion i (.resolved r))).ui.isLoading = false ∧
      (sys.step p (.completion i (.resolved r))).ui.error = sys.ui.error ∧
      (sys.step p (.completion i (.resolved r))).inFlight = sys.inFlight.eraseIdx i) := by
  refine ⟨?_, rfl, processFile_uninterrupted s file r data qs ss hok hbody hq hk, ?_⟩
  · rw [processFileSettle_ok s r data _ _ hok hbody hq hk]
    exact ⟨rfl, rfl, rfl, rfl, rfl⟩
  · intro h
    have hstep : sys.step p (.completion i (.resolved r)) =
        { ui := (processFileSettle sys.ui (.resolved r)).state,
          inFlight := sys.inFlight.eraseIdx i } := by
      simp only [System.step, h]
    rw [hstep, processFileSettle_ok sys.ui r data _ _ hok hbody hq hk]
    exact ⟨rfl, rfl, rfl, rfl, rfl⟩

/-- C1, amended, at a concrete input: status 200 with two questions and one skill,
arriving on a state that shows older results and an error, and arriving for the
upload still in flight after the first of two uploads has failed. -/
theorem processFile_completion_stores_response_witness :
    ((processFileSettle stateWithResults (.resolved ⟨200, some sampleBody⟩)).state.questions
        = strArr ["Q1", "Q2"] ∧
      (processFileSettle stateWithResults (.resolved ⟨200, some sampleBody⟩)).state.skills
        = strArr ["SQL"] ∧
      (processFileSettle stateWithResults (.resolved ⟨200, some sampleBody⟩)).state.isLoading
        = false ∧
      (processFileSettle stateWithResults (.resolved ⟨200, some sampleBody⟩)).state.error
        = "old error") ∧
    (processFile stateWithResults sampleFile (.resolved ⟨200, some sampleBody⟩)).state.error = "" ∧
    ((System.run chrome (interleavedUploads.take 3) System.init).step chrome
        (.completion 0 (.resolved ⟨200, some sampleBody⟩))).ui.questions = strArr ["Q1", "Q2"] ∧
    ((System.run chrome (interleavedUploads.take 3) System.init).step chrome
        (.completion 0 (.resolved ⟨200, some sampleBody⟩))).ui.error
      = (System.run chrome (interleavedUploads.take 3) System.init).ui.error :=
  have h := processFile_completion_stores_response stateWithResults sampleFile
    ⟨200, some sampleBody⟩ sampleBody ["Q1", "Q2"] ["SQL"] chrome
    (System.run chrome (interleavedUploads.take 3) System.init) 0 rfl rfl rfl rfl
  ⟨⟨h.1.1, h.1.2.1, h.1.2.2.1, h.1.2.2.2.1⟩, h.2.2.1.2.2.2.1, (h.2.2.2 rfl).1,
   (h.2.2.2 rfl).2.2.2.1⟩

/-- The handler `startRecording` never writes the transcript. -/
theorem startRecording_transcript (p : Platform) (s : QGState) :
    (startRecording p s).state.transcript = s.transcript := by
  unfold startRecording
  split <;> rfl

/-- C7 on the code: a second capture stopped right after its start, before any
recognizer callback is delivered, still holds the transcript of the first capture;
`stopRecording` posts that text, sets isLoading to true and shows no no-speech
message. -/
theorem stale_transcript_is_submitted :
    (System.run chrome secondCaptureStarted System.init).ui.isRecording = true ∧
    (System.run chrome secondCaptureStarted System.init).ui.transcript = "hello " ∧
    (System.run chrome secondCaptureStarted System.init).inFlight = [] ∧
    requestsOf (toggleRecordingStart chrome
        (System.run chrome secondCaptureStarted System.init).ui).effects
      = [voiceRequest "hello "] ∧
    ((System.run chrome secondCaptureStarted System.init).step chrome .toggleRecord).inFlight
      = [.voice] ∧
    ((System.run chrome secondCaptureStarted System.init).step chrome .toggleRecord).ui.isLoading
      = true ∧
    ((System.run chrome secondCaptureStarted System.init).step chrome .toggleRecord).ui.error
      = "" :=
  ⟨rfl, rfl, rfl, rfl, rfl, rfl, rfl⟩

/-- The handler `fetchHistory` on a failed fetch: the history is emptied, loading is
turned off, nothing is thrown, and the modal is left as it was: closed when it was
closed. -/
theorem fetchHistory_failed (s : NavbarState) (o : FetchOutcome) (hfail : o.failed = true) :
    (fetchHistory s o).state = { s with history := [], isLoading := false } ∧
    (fetchHistory s o).thrown = none := by
  cases o with
  | rejected e => exact ⟨rfl, rfl⟩
  | resolved r =>
    have hr : r.ok = false := by simpa [FetchOutcome.failed] using hfail
    simp [fetchHistory, fetchHistoryStart, fetchHistorySettle, fetchHistoryTry, hr]

end InterviewAI
